import Mathlib

/-!
Shallow embedding of the process-supervision / reverse-proxy / health-presence
core of the desktop app (source: `src/main.ts`).

The module-level mutable variables of the main process (lines 206-223 of the
source) are gathered into one `MainState` record.  Each source function that
reads or writes them becomes a Lean function `MainState → MainState × List Out`
(plus a `Response` for the HTTP request handler), where `Out` records the
observable effects: `send(channel, value)` events to the UI boundary, child
process spawns/kills, scheduled timers, and procedure-invocation markers for
`stopServer` / `startServer` / `startTunnel` so that "exactly one restart"
style properties can be counted.
-/

namespace Clawdaunt

/-- Source line 20: `const CLAWDAUNT_PROTOCOL_VERSION = 1`. -/
def CLAWDAUNT_PROTOCOL_VERSION : Nat := 1

/-- Source lines 23-28: a workspace record.  The source field `protected` is a
Lean keyword, so it is rendered `protectedPaths`. -/
structure Workspace where
  id : String
  name : String
  paths : List String
  protectedPaths : List String
deriving DecidableEq, Repr

/-- Source lines 32-40: the persisted configuration record.  `aiSource` is kept
as a `String` because the POST body arrives as an arbitrary string and is
validated by list membership (source line 346). -/
structure Config where
  port : Nat
  password : String
  workspaces : List Workspace
  activeWorkspaceId : Option String
  aiSource : String
  apiKey : String
  apiProvider : String
deriving DecidableEq, Repr

/-- Source line 215: the tunnel health enum `'healthy' | 'checking' | 'down'`. -/
inductive THealth
  | healthy
  | checking
  | down
deriving DecidableEq, Repr

/-- String rendering of a `THealth` value, as sent over the `tunnel-health`
channel. -/
def healthStr : THealth → String
  | .healthy => "healthy"
  | .checking => "checking"
  | .down => "down"

/-- The module-level mutable variables of the main process (source lines
206-223), plus `tunnelFailCount`, which in the source is the closure variable
`failCount` of `startTunnelHealthMonitor` (line 652), hoisted here so the
interval body can be a pure function.  Child-process handles and interval
handles are reduced to existence booleans. -/
structure MainState where
  configStore : Config
  intentionallyStopping : Bool
  tunnelRestarting : Bool
  currentTunnelURL : String
  tunnelHealthInterval : Bool
  tunnelHealthStatus : THealth
  tunnelFailCount : Nat
  lastClientHeartbeat : Nat
  clientPresenceInterval : Bool
  clientConnectedState : Bool
  clientAwayState : Bool
  gatewayProc : Bool
  cloudflaredProc : Bool
deriving DecidableEq, Repr

/-- Initial values of the module-level variables (source lines 206-223); the
config store holds whatever `loadConfig()` returned at startup. -/
def initState (cfg : Config) : MainState :=
  { configStore := cfg
    intentionallyStopping := false
    tunnelRestarting := false
    currentTunnelURL := ""
    tunnelHealthInterval := false
    tunnelHealthStatus := .checking
    tunnelFailCount := 0
    lastClientHeartbeat := 0
    clientPresenceInterval := false
    clientConnectedState := false
    clientAwayState := false
    gatewayProc := false
    cloudflaredProc := false }

/-- Availability of the external binaries, as reported by `findBinary`
(source lines 184-195), and whether `spawn` would succeed.  Passed as an
environment because binary discovery reads the filesystem. -/
structure Env where
  cloudflaredBin : Bool
  openclawBin : Bool
  claudeBin : Bool
  codexBin : Bool
deriving DecidableEq, Repr

/-- Observable effects of one synchronous run of a handler: `send` events to
the renderer, process spawns and kills, scheduled timers, and invocation
markers for the supervisor entry points (used to count restarts). -/
inductive Out
  | send (channel : String) (value : String)
  | probe (url : String)
  | spawnCloudflared
  | spawnGateway
  | killCloudflared
  | killGateway
  | schedTunnelRestart (delayMs : Nat)
  | callStartTunnel
  | callStopServer (resetClient : Bool)
  | callStartServer
  | writeOpenClawConfig
  | spliceToBackend
deriving DecidableEq, Repr

-- ── Client presence monitoring (source lines 602-632) ──

/-- Source line 605: `const CLIENT_AWAY_TIMEOUT = 30000`. -/
def CLIENT_AWAY_TIMEOUT : Nat := 30000

/-- Source line 606: `const CLIENT_DISCONNECT_TIMEOUT = 120000`. -/
def CLIENT_DISCONNECT_TIMEOUT : Nat := 120000

/-- Source lines 608-610 and 625: `startClientPresenceMonitor` replaces any
existing interval with a fresh one; only the existence of the interval is
modelled (the interval body is `presenceTick`). -/
def startClientPresenceMonitor (s : MainState) : MainState :=
  { s with clientPresenceInterval := true }

/-- Source lines 627-632: `stopClientPresenceMonitor`. -/
def stopClientPresenceMonitor (s : MainState) : MainState :=
  { s with clientPresenceInterval := false }

/-- Source lines 610-624: the body of the 2 s presence polling interval.
`now` is `Date.now()` at the tick.  JS computes `Date.now() -
lastClientHeartbeat` on numbers; since the wall clock is monotone the
difference is non-negative, and truncated `Nat` subtraction agrees with it on
every guard below. -/
def presenceTick (now : Nat) (s : MainState) : MainState × List Out :=
  if !s.clientConnectedState || s.lastClientHeartbeat == 0 then (s, [])
  else
    let elapsed := now - s.lastClientHeartbeat
    if elapsed > CLIENT_DISCONNECT_TIMEOUT then
      ({ s with clientConnectedState := false
                clientAwayState := false
                lastClientHeartbeat := 0 },
       [Out.send "client-disconnected" "true"])
    else if elapsed > CLIENT_AWAY_TIMEOUT && !s.clientAwayState then
      ({ s with clientAwayState := true }, [Out.send "client-away" "true"])
    else
      (s, [])

/-- Run a sequence of presence-poll ticks (the interval firing at the given
sequence of wall-clock instants), concatenating the emitted events. -/
def runTicks : List Nat → MainState → MainState × List Out
  | [], s => (s, [])
  | t :: ts, s =>
    let r1 := presenceTick t s
    let r2 := runTicks ts r1.1
    (r2.1, r1.2 ++ r2.2)

/-- Whether an effect is the `send('client-away', true)` event. -/
def isAwaySend : Out → Bool
  | .send c _ => c == "client-away"
  | _ => false

-- ── Tunnel health monitor and tunnel supervisor (source lines 634-753) ──

/-- Source lines 645-648: `setTunnelHealth` writes the status variable and
emits a `tunnel-health` event. -/
def setTunnelHealth (st : THealth) (s : MainState) : MainState × List Out :=
  ({ s with tunnelHealthStatus := st }, [Out.send "tunnel-health" (healthStr st)])

/-- Source lines 650-653 of `startTunnelHealthMonitor`: the synchronous part
that runs before the first interval tick — reset the closure variable
`failCount`, publish `healthy`, install the 10 s interval.  The interval body
is `tunnelHealthTick`. -/
def startTunnelHealthMonitorInit (s : MainState) : MainState × List Out :=
  let s1 := { s with tunnelFailCount := 0 }
  let r := setTunnelHealth .healthy s1
  ({ r.1 with tunnelHealthInterval := true }, r.2)

/-- Source lines 678-689 of `startTunnel`: the synchronous part — binary
lookup, then spawn.  The URL-scraping and DNS wait on the output stream are
modelled separately (`waitForDns`); the invocation itself is recorded with the
`callStartTunnel` marker so that restarts can be counted. -/
def startTunnel (env : Env) (s : MainState) : MainState × List Out :=
  if !env.cloudflaredBin then
    (s, [Out.callStartTunnel,
         Out.send "error" "cloudflared not found. Install with: brew install cloudflare/cloudflare/cloudflared"])
  else
    ({ s with cloudflaredProc := true }, [Out.callStartTunnel, Out.spawnCloudflared])

/-- Source lines 654-675: the body of the 10 s tunnel-health interval.  `ok`
is the awaited result of `verifyTunnelReachable` for this tick; the outbound
probe itself is recorded as an effect. -/
def tunnelHealthTick (env : Env) (ok : Bool) (s : MainState) : MainState × List Out :=
  if s.currentTunnelURL == "" || s.intentionallyStopping then (s, [])
  else
    let probeOut := [Out.probe s.currentTunnelURL]
    if ok then
      let s1 := { s with tunnelFailCount := 0 }
      if s1.tunnelHealthStatus ≠ .healthy then
        let r := setTunnelHealth .healthy s1
        (r.1, probeOut ++ r.2)
      else (s1, probeOut)
    else
      let fc := s.tunnelFailCount + 1
      let s1 := { s with tunnelFailCount := fc }
      let r1 := if fc == 1 then setTunnelHealth .checking s1 else (s1, [])
      if fc ≥ 3 then
        let s2 := { r1.1 with tunnelFailCount := 0 }
        let r2 := setTunnelHealth .down s2
        let s3 := { r2.1 with currentTunnelURL := "" }
        let o3 := [Out.send "tunnel-url" ""]
        let s4 := { s3 with tunnelRestarting := true }
        let s5 := { s4 with cloudflaredProc := false }
        let r3 := startTunnel env s5
        (r3.1, probeOut ++ r1.2 ++ r2.2 ++ o3 ++ [Out.killCloudflared] ++ r3.2)
      else (r1.1, probeOut ++ r1.2)

/-- Source lines 740-752: the `exit` handler attached to a spawned tunnel
process.  `rateLimited` is the closure flag set by the output scanner when a
429 signature was seen. -/
def cloudflaredExit (rateLimited : Bool) (s : MainState) : MainState × List Out :=
  if s.intentionallyStopping then (s, [])
  else if s.tunnelRestarting then
    ({ s with tunnelRestarting := false }, [])
  else
    let delay := if rateLimited then 60000 else 2000
    ({ s with currentTunnelURL := "" },
     [Out.send "tunnel-url" "", Out.schedTunnelRestart delay])

/-- Outcome of the DNS-resolution wait loop in `startTunnel` (source lines
712-729). -/
inductive DnsOutcome
  | published
  | killedTunnel
  | abortedStopping
  | pending
deriving DecidableEq, Repr

/-- Source lines 711-729: the `waitForDns` retry loop.  Each element of
`attempts` is one invocation of the loop body: the wall-clock time at entry
and the result of `resolver.resolve4` for that attempt (`true` = resolved).
On error the source re-arms itself with `setTimeout(waitForDns, 1000)`, so
consecutive attempt times are at least 1000 ms apart; on success it publishes
the URL and starts the health monitor; past the 30 s ceiling it kills the
process and returns without publishing. -/
def waitForDns (url : String) (dnsStart : Nat) (s : MainState) :
    List (Nat × Bool) → MainState × List Out × DnsOutcome
  | [] => (s, [], .pending)
  | (t, ok) :: rest =>
    if s.intentionallyStopping then (s, [], .abortedStopping)
    else if t - dnsStart > 30000 then (s, [Out.killCloudflared], .killedTunnel)
    else if ok then
      let s1 := { s with currentTunnelURL := url }
      let r := startTunnelHealthMonitorInit s1
      (r.1, Out.send "tunnel-url" url :: r.2, .published)
    else waitForDns url dnsStart s rest

-- ── Gateway supervisor (source lines 846-962) ──

/-- Source line 857: `config.workspaces.find((w) => w.id ===
config.activeWorkspaceId)`. -/
def findActiveWorkspace (cfg : Config) : Option Workspace :=
  cfg.workspaces.find? (fun w => some w.id == cfg.activeWorkspaceId)

/-- Source lines 847-926 of `startServer`: the synchronous part — clear the
`intentionallyStopping` flag, check the binary and the active workspace, write
the downstream config, announce `starting`, and spawn the gateway.  The
invocation is recorded with the `callStartServer` marker.  Note that the flag
is cleared before the fail-fast checks, exactly as in the source. -/
def startServer (env : Env) (s : MainState) : MainState × List Out :=
  let cfg := s.configStore
  let s1 := { s with intentionallyStopping := false }
  if !env.openclawBin then
    (s1, [Out.callStartServer,
          Out.send "error" "openclaw not found. Install with: brew install openclaw-cli"])
  else
    match findActiveWorkspace cfg with
    | none =>
      (s1, [Out.callStartServer,
            Out.send "error" "No active workspace configured. Create a workspace first."])
    | some ws =>
      if ws.paths.isEmpty then
        (s1, [Out.callStartServer,
              Out.send "error" "No active workspace configured. Create a workspace first."])
      else
        ({ s1 with gatewayProc := true },
         [Out.callStartServer, Out.writeOpenClawConfig,
          Out.send "gateway-log" "\x1b[2J", Out.send "status" "starting",
          Out.spawnGateway])

/-- Source lines 928-941: `stopServer(resetClient)`.  `closeGatewayWs` only
touches the (unmodelled) session roster.  The invocation is recorded with the
`callStopServer` marker. -/
def stopServer (resetClient : Bool) (s : MainState) : MainState × List Out :=
  let s1 := { s with intentionallyStopping := true, gatewayProc := false }
  let outs := [Out.callStopServer resetClient, Out.killGateway,
               Out.send "status" "stopped"]
  if resetClient then
    ({ s1 with clientConnectedState := false
               clientAwayState := false
               lastClientHeartbeat := 0
               clientPresenceInterval := false },
     outs ++ [Out.send "client-disconnected" "true"])
  else (s1, outs)

/-- Source lines 907-917: the `exit` handler attached to a spawned gateway
process.  When the stop was not deliberate it reports the exit and resets
client presence. -/
def gatewayExit (code : Int) (s : MainState) : MainState × List Out :=
  if s.intentionallyStopping then (s, [])
  else
    let o1 := [Out.send "status" (if code == 0 then "stopped" else "error")]
    let o2 := if code != 0 then [Out.send "error" "openclaw exited with nonzero code"] else []
    ({ s with clientConnectedState := false
              clientAwayState := false
              lastClientHeartbeat := 0
              clientPresenceInterval := false },
     o1 ++ o2 ++ [Out.send "client-disconnected" "true"])

/-- Source lines 943-962: `stopAll`. -/
def stopAll (s : MainState) : MainState × List Out :=
  ({ s with intentionallyStopping := true
            tunnelHealthInterval := false
            clientPresenceInterval := false
            gatewayProc := false
            cloudflaredProc := false
            clientConnectedState := false
            clientAwayState := false
            lastClientHeartbeat := 0
            currentTunnelURL := "" },
   [Out.killCloudflared, Out.killGateway, Out.send "status" "stopped",
    Out.send "tunnel-url" ""])

-- ── Reverse proxy (source lines 271-593) ──

/-- Parsed JSON body of a `POST /global/ai-config` request (source line 345
destructures `{aiSource, apiKey, apiProvider}`); `none` fields are absent
keys. -/
structure AiConfigBody where
  aiSource : Option String
  apiKey : Option String
  apiProvider : Option String
deriving DecidableEq, Repr

/-- An incoming HTTP request as seen by the proxy handler.  The raw JSON body
is represented pre-parsed per endpoint: `aiConfigBody = none` models a body
that `JSON.parse` rejects (→ 400), and similarly for `workspaceBody`, whose
inner `Option String` is the possibly-absent `workspaceId` field. -/
structure Request where
  method : String
  url : String
  authorization : Option String
  aiConfigBody : Option AiConfigBody
  workspaceBody : Option (Option String)
deriving DecidableEq, Repr

/-- CLI availability flags included in the ai-config responses (source lines
319-323). -/
structure CliAvail where
  claude : Bool
  codex : Bool
  openclaw : Bool
deriving DecidableEq, Repr

/-- Workspace summary included in responses (source lines 324-328):
`{id, name, path: w.paths[0]}`. -/
structure WsSummary where
  id : String
  name : String
  path : Option String
deriving DecidableEq, Repr

/-- Structured response bodies (the source serialises these with
`JSON.stringify`). -/
inductive RespBody
  | errorMsg (msg : String)
  | okStatus
  | aiConfigView (protocolVersion : Option Nat) (aiSource : String)
      (apiProvider : String) (hasApiKey : Bool) (clis : CliAvail)
      (workspaces : List WsSummary) (activeWorkspaceId : Option String)
  | workspacesView (workspaces : List WsSummary) (activeWorkspaceId : Option String)
  | historyResult
  | sessionsResult
deriving DecidableEq, Repr

/-- What the proxy does with a request: answer it locally, answer the CORS
preflight with 204, or stream it through to the backend port (source lines
550-568), relaying whatever the backend answers. -/
inductive Response
  | status (code : Nat) (body : RespBody)
  | noContent204
  | proxiedToBackend
deriving DecidableEq, Repr

/-- The `Bearer ${config.password}` comparison string (source line 274). -/
def expectedAuthOf (cfg : Config) : String := "Bearer " ++ cfg.password

/-- The auth check `req.headers.authorization !== expectedAuth` done inside
each control-endpoint branch; `cfg0` is the config captured when
`startProxyServer` ran. -/
def authOk (cfg0 : Config) (r : Request) : Bool :=
  r.authorization == some (expectedAuthOf cfg0)

/-- The 401 answer shared by every control endpoint: structured error body,
no state change, no effects. -/
def unauthorized (s : MainState) : MainState × Response × List Out :=
  (s, .status 401 (.errorMsg "Unauthorized"), [])

/-- CLI availability as computed by the three `findBinary` calls in the
ai-config handlers. -/
def cliAvailOf (env : Env) : CliAvail :=
  { claude := env.claudeBin, codex := env.codexBin, openclaw := env.openclawBin }

/-- The workspace summary list `cfg.workspaces.map(...)` (source lines
324-328); `w.paths[0]` is `undefined` when the list is empty. -/
def wsSummaries (cfg : Config) : List WsSummary :=
  cfg.workspaces.map (fun w => { id := w.id, name := w.name, path := w.paths.head? })

/-- Source line 451: the regex `^\/v1\/sessions\/([^/]+)\/history` applied to
`req.url`; returns the captured session key (the `[^/]+` group) when the url
matches.  Implemented over the url's character list: a literal prefix
`/v1/sessions/`, then a non-empty run of non-slash characters, then the
literal `/history` (the regex is unanchored at the end). -/
def historyKeyOf (url : String) : Option String :=
  if ("/v1/sessions/".data).isPrefixOf url.data then
    let rest := url.data.drop 13
    let seg := rest.takeWhile (fun c => c ≠ '/')
    if seg.length > 0 && ("/history".data).isPrefixOf (rest.drop seg.length) then
      some (String.mk seg)
    else none
  else none

/-- Source lines 287-303: the `POST /heartbeat` branch after the auth check. -/
def heartbeatRoute (now : Nat) (s : MainState) : MainState × Response × List Out :=
  let s1 := { s with lastClientHeartbeat := now }
  let s2 := if !s1.clientConnectedState then
              startClientPresenceMonitor { s1 with clientConnectedState := true }
            else s1
  let s3 := { s2 with clientAwayState := false }
  (s3, .status 200 .okStatus, [Out.send "client-connected" "true"])

/-- Source lines 306-332: the `GET /global/ai-config` branch after the auth
check; re-reads the persisted config. -/
def aiConfigGetRoute (env : Env) (s : MainState) : MainState × Response × List Out :=
  let cfg := s.configStore
  (s, .status 200 (.aiConfigView (some CLAWDAUNT_PROTOCOL_VERSION) cfg.aiSource
        cfg.apiProvider (!(cfg.apiKey == "")) (cliAvailOf env) (wsSummaries cfg)
        cfg.activeWorkspaceId),
   [])

/-- Source lines 335-385: the `POST /global/ai-config` branch after the auth
check — validate the source against the enum list, persist, restart the
gateway without a presence reset, notify the UI, answer with the summary
shape (which, unlike the GET, carries no protocol version). -/
def aiConfigPostRoute (env : Env) (r : Request) (s : MainState) :
    MainState × Response × List Out :=
  match r.aiConfigBody with
  | none => (s, .status 400 (.errorMsg "Invalid JSON body"), [])
  | some b =>
    match b.aiSource with
    | none => (s, .status 400 (.errorMsg "Invalid aiSource"), [])
    | some src =>
      if !(["claude-cli", "codex-cli", "api-key"].contains src) then
        (s, .status 400 (.errorMsg "Invalid aiSource"), [])
      else
        let cfg := s.configStore
        let cfg := { cfg with aiSource := src }
        let cfg := match b.apiKey with
                   | some k => { cfg with apiKey := k }
                   | none => cfg
        let cfg := match b.apiProvider with
                   | some p => { cfg with apiProvider := p }
                   | none => cfg
        let s1 := { s with configStore := cfg }
        let r1 := stopServer false s1
        let r2 := startServer env r1.1
        (r2.1,
         .status 200 (.aiConfigView none cfg.aiSource cfg.apiProvider
            (!(cfg.apiKey == "")) (cliAvailOf env) (wsSummaries cfg)
            cfg.activeWorkspaceId),
         r1.2 ++ [Out.writeOpenClawConfig] ++ r2.2 ++ [Out.send "config-changed" ""])

/-- Source lines 388-405: the `GET /global/workspaces` branch after the auth
check. -/
def workspacesGetRoute (s : MainState) : MainState × Response × List Out :=
  let cfg := s.configStore
  (s, .status 200 (.workspacesView (wsSummaries cfg) cfg.activeWorkspaceId), [])

/-- Source lines 408-445: the `POST /global/workspaces/active` branch after
the auth check. -/
def workspacesActiveRoute (env : Env) (r : Request) (s : MainState) :
    MainState × Response × List Out :=
  match r.workspaceBody with
  | none => (s, .status 400 (.errorMsg "Invalid JSON body"), [])
  | some wid =>
    let cfg := s.configStore
    match cfg.workspaces.find? (fun w => some w.id == wid) with
    | none => (s, .status 404 (.errorMsg "Workspace not found"), [])
    | some _ =>
      let cfg := { cfg with activeWorkspaceId := wid }
      let s1 := { s with configStore := cfg }
      let r1 := stopServer false s1
      let r2 := startServer env r1.1
      (r2.1,
       .status 200 (.workspacesView (wsSummaries cfg) cfg.activeWorkspaceId),
       r1.2 ++ r2.2 ++ [Out.send "config-changed" ""])

/-- Source lines 276-569: the proxy request handler, branch for branch in
source order.  `cfg0` is the config captured at `startProxyServer` time (its
password is the expected credential); the two history/sessions endpoints are
answered from the filesystem or a subprocess, which is outside this model, so
their post-auth behaviour is abstracted into opaque result bodies. -/
def handleRequest (cfg0 : Config) (env : Env) (now : Nat) (r : Request)
    (s : MainState) : MainState × Response × List Out :=
  if r.method == "OPTIONS" then (s, .noContent204, [])
  else if r.url == "/heartbeat" && r.method == "POST" then
    if !(authOk cfg0 r) then unauthorized s else heartbeatRoute now s
  else if r.url == "/global/ai-config" && r.method == "GET" then
    if !(authOk cfg0 r) then unauthorized s else aiConfigGetRoute env s
  else if r.url == "/global/ai-config" && r.method == "POST" then
    if !(authOk cfg0 r) then unauthorized s else aiConfigPostRoute env r s
  else if r.url == "/global/workspaces" && r.method == "GET" then
    if !(authOk cfg0 r) then unauthorized s else workspacesGetRoute s
  else if r.url == "/global/workspaces/active" && r.method == "POST" then
    if !(authOk cfg0 r) then unauthorized s else workspacesActiveRoute env r s
  else if (historyKeyOf r.url).isSome && r.method == "GET" then
    if !(authOk cfg0 r) then unauthorized s
    else (s, .status 200 .historyResult, [])
  else if r.url == "/v1/sessions" && r.method == "GET" then
    if !(authOk cfg0 r) then unauthorized s
    else (s, .status 200 .sessionsResult, [])
  else
    (s, .proxiedToBackend, [])

/-- Source lines 572-590: the `upgrade` handler — the raw request line and
headers are replayed onto a fresh backend connection and the two sockets are
spliced; no credential check of any kind is performed. -/
def handleUpgrade (_r : Request) (s : MainState) : MainState × List Out :=
  (s, [Out.spliceToBackend])

-- ── Event-loop step relation ──

/-- The externally triggered events that drive the supervision core: an HTTP
request or upgrade arriving at the proxy, a timer tick of one of the two
monitors, a child-process exit, the IPC server start/stop commands, full
shutdown, and host suspend/resume (source lines 1146-1155). -/
inductive Ev
  | request (cfg0 : Config) (env : Env) (now : Nat) (r : Request)
  | upgrade (r : Request)
  | presenceTickEv (now : Nat)
  | tunnelTickEv (env : Env) (ok : Bool)
  | cloudflaredExitEv (rateLimited : Bool)
  | gatewayExitEv (code : Int)
  | stopServerEv (resetClient : Bool)
  | startServerEv (env : Env)
  | startTunnelEv (env : Env)
  | stopAllEv
  | suspendEv
  | resumeEv (now : Nat)
deriving DecidableEq, Repr

/-- One turn of the event loop.  Interval-tick events fire only while the
corresponding interval exists; process-exit events run the handler body that
was attached when the process was spawned. -/
def step (s : MainState) : Ev → MainState × List Out
  | .request cfg0 env now r =>
    let res := handleRequest cfg0 env now r s
    (res.1, res.2.2)
  | .upgrade r => handleUpgrade r s
  | .presenceTickEv now =>
    if s.clientPresenceInterval then presenceTick now s else (s, [])
  | .tunnelTickEv env ok =>
    if s.tunnelHealthInterval then tunnelHealthTick env ok s else (s, [])
  | .cloudflaredExitEv rl => cloudflaredExit rl s
  | .gatewayExitEv code => gatewayExit code s
  | .stopServerEv resetClient => stopServer resetClient s
  | .startServerEv env => startServer env s
  | .startTunnelEv env => startTunnel env s
  | .stopAllEv => stopAll s
  | .suspendEv => (stopClientPresenceMonitor s, [])
  | .resumeEv now =>
    if s.clientConnectedState then
      (startClientPresenceMonitor { s with lastClientHeartbeat := now }, [])
    else (s, [])

/-- The states the event loop can reach from startup (any persisted config). -/
inductive Reachable : MainState → Prop
  | init (cfg : Config) : Reachable (initState cfg)
  | next {s : MainState} (h : Reachable s) (e : Ev) : Reachable (step s e).1

-- ── Effect classifiers for counting ──

/-- Whether an effect is the `send('tunnel-url', '')` event that clears the
published URL at the UI boundary. -/
def isUrlClear : Out → Bool
  | .send c v => c == "tunnel-url" && v == ""
  | _ => false

/-- Whether an effect invokes a tunnel restart: a direct `startTunnel()` call
or a scheduled `setTimeout(() => startTunnel(), delay)`. -/
def isTunnelRestart : Out → Bool
  | .callStartTunnel => true
  | .schedTunnelRestart _ => true
  | _ => false

/-- Whether an effect is a gateway stop or start invocation. -/
def isGatewayRestartMarker : Out → Bool
  | .callStopServer _ => true
  | .callStartServer => true
  | _ => false

/-- The invariant of the presence data model: an away client is still a
connected client. -/
def PresenceInv (s : MainState) : Prop :=
  s.clientAwayState = true → s.clientConnectedState = true

-- ── Concrete fixtures used by closed evaluation theorems ──

/-- A concrete workspace. -/
def wsEx : Workspace :=
  { id := "w1", name := "proj", paths := ["/tmp/proj"], protectedPaths := [] }

/-- A concrete persisted configuration with one active workspace. -/
def cfgEx : Config :=
  { port := 4096, password := "s3cret", workspaces := [wsEx],
    activeWorkspaceId := some "w1", aiSource := "claude-cli",
    apiKey := "", apiProvider := "anthropic" }

/-- A concrete environment where every binary resolves. -/
def envEx : Env :=
  { cloudflaredBin := true, openclawBin := true, claudeBin := true, codexBin := true }

/-- A correctly authenticated `POST /heartbeat` request against `cfgEx`. -/
def hbReqEx : Request :=
  { method := "POST", url := "/heartbeat", authorization := some "Bearer s3cret",
    aiConfigBody := none, workspaceBody := none }

/-- A correctly authenticated `POST /global/ai-config` request selecting the
api-key source. -/
def aiPostReqEx : Request :=
  { method := "POST", url := "/global/ai-config",
    authorization := some "Bearer s3cret",
    aiConfigBody := some { aiSource := some "api-key", apiKey := some "k",
                           apiProvider := some "openai" },
    workspaceBody := none }

/-- A concrete state in which a client heartbeated at time 5 and is marked
connected, with the presence monitor running. -/
def sConnEx : MainState :=
  { initState cfgEx with clientConnectedState := true, lastClientHeartbeat := 5,
                         clientPresenceInterval := true }

/-- A request that matches no control endpoint, carrying a wrong credential. -/
def passThroughReqEx : Request :=
  { method := "GET", url := "/anything", authorization := some "Bearer wrong",
    aiConfigBody := none, workspaceBody := none }

/-- A correctly authenticated `POST /global/ai-config` request against an
arbitrary captured config, selecting the api-key source with key `k` and
provider `openai` (the round-trip input of the spec's testable property). -/
def aiPostReqOf (cfg0 : Config) : Request :=
  { method := "POST", url := "/global/ai-config",
    authorization := some (expectedAuthOf cfg0),
    aiConfigBody := some { aiSource := some "api-key", apiKey := some "k",
                           apiProvider := some "openai" },
    workspaceBody := none }

/-- A correctly authenticated `GET /global/ai-config` request against an
arbitrary captured config. -/
def aiGetReqOf (cfg0 : Config) : Request :=
  { method := "GET", url := "/global/ai-config",
    authorization := some (expectedAuthOf cfg0),
    aiConfigBody := none, workspaceBody := none }

/-- The Boolean route test for the proxy's locally terminated control
endpoints, mirroring the branch conditions of `handleRequest` in source
order. -/
def isControlRoute (r : Request) : Bool :=
  (r.url == "/heartbeat" && r.method == "POST") ||
  (r.url == "/global/ai-config" && r.method == "GET") ||
  (r.url == "/global/ai-config" && r.method == "POST") ||
  (r.url == "/global/workspaces" && r.method == "GET") ||
  (r.url == "/global/workspaces/active" && r.method == "POST") ||
  ((historyKeyOf r.url).isSome && r.method == "GET") ||
  (r.url == "/v1/sessions" && r.method == "GET")

-- ═══════════════════════════ Theorems ═══════════════════════════

-- ── Shared helper lemmas ──

/-- Potential function for the once-per-episode property: the value is 1
exactly while a further `client-away` emission is still possible. -/
def awayBudget (s : MainState) : Nat :=
  if s.clientConnectedState && !s.clientAwayState then 1 else 0

/-- One presence-poll tick spends the away budget on any `client-away` it
emits and never replenishes it. -/
lemma presenceTick_awayBudget (t : Nat) (s : MainState) :
    List.countP isAwaySend (presenceTick t s).2
      + awayBudget (presenceTick t s).1 ≤ awayBudget s := by
  unfold presenceTick awayBudget
  by_cases hg : (!s.clientConnectedState || s.lastClientHeartbeat == 0) = true
  · simp [hg]
  · have hgf : (!s.clientConnectedState || s.lastClientHeartbeat == 0) = false := by
      simpa using hg
    have hc : s.clientConnectedState = true := by
      rcases Bool.or_eq_false_iff.mp hgf with ⟨h1, _⟩
      simpa using h1
    by_cases hd : t - s.lastClientHeartbeat > CLIENT_DISCONNECT_TIMEOUT
    · simp [hgf, hd, isAwaySend]
    · by_cases ha : ((t - s.lastClientHeartbeat > CLIENT_AWAY_TIMEOUT) &&
          !s.clientAwayState) = true
      · have hna : s.clientAwayState = false := by
          have := (Bool.and_eq_true _ _).mp ha
          simpa using this.2
        have hlast : s.lastClientHeartbeat ≠ 0 := by
          rcases Bool.or_eq_false_iff.mp hgf with ⟨_, h2⟩
          simpa using h2
        have haw : CLIENT_AWAY_TIMEOUT < t - s.lastClientHeartbeat := by
          have := (Bool.and_eq_true _ _).mp ha
          simpa using this.1
        simp [hgf, hd, haw, isAwaySend, hc, hna, hlast]
      · have hlast : s.lastClientHeartbeat ≠ 0 := by
          rcases Bool.or_eq_false_iff.mp hgf with ⟨_, h2⟩
          simpa using h2
        simp [hgf, hd, ha, hlast, hc]

/-- The presence-poll bound for the once-per-episode property: a run of ticks
can emit `client-away` at most once, and not at all unless it starts
connected and not yet away. -/
lemma countAway_runTicks_le (ts : List Nat) (s : MainState) :
    List.countP isAwaySend (runTicks ts s).2 ≤ awayBudget s := by
  induction ts generalizing s with
  | nil => simp [runTicks]
  | cons t ts ih =>
    simp only [runTicks, List.countP_append]
    have h1 := presenceTick_awayBudget t s
    have h2 := ih (presenceTick t s).1
    omega


-- ── C3: heartbeat / away / disconnect lifecycle ──

/-- C3: After an authenticated `POST /heartbeat`, presence is connected and
not away with the heartbeat timestamp recorded; a presence-poll tick with
elapsed time beyond 30 s (but within 120 s) on a connected, not-yet-away
client sets the away flag and emits `client-away`; over any run of poll
ticks the `client-away` event is emitted at most once; and a tick with
elapsed time beyond 120 s resets presence (connected and away cleared,
timestamp zeroed) and emits the disconnected event.  A new heartbeat clears
the away flag (first conjunct). -/
theorem c3_heartbeat_presence_lifecycle :
    (∀ (cfg0 : Config) (env : Env) (now : Nat) (r : Request) (s : MainState),
       r.url = "/heartbeat" → r.method = "POST" → authOk cfg0 r = true →
       (handleRequest cfg0 env now r s).1.clientConnectedState = true ∧
       (handleRequest cfg0 env now r s).1.clientAwayState = false ∧
       (handleRequest cfg0 env now r s).1.lastClientHeartbeat = now ∧
       (handleRequest cfg0 env now r s).2.1 = .status 200 .okStatus) ∧
    (∀ (now : Nat) (s : MainState),
       s.clientConnectedState = true → s.lastClientHeartbeat ≠ 0 →
       now - s.lastClientHeartbeat > CLIENT_AWAY_TIMEOUT →
       now - s.lastClientHeartbeat ≤ CLIENT_DISCONNECT_TIMEOUT →
       s.clientAwayState = false →
       presenceTick now s =
         ({ s with clientAwayState := true }, [Out.send "client-away" "true"])) ∧
    (∀ (ts : List Nat) (s : MainState),
       List.countP isAwaySend (runTicks ts s).2 ≤ 1) ∧
    (∀ (now : Nat) (s : MainState),
       s.clientConnectedState = true → s.lastClientHeartbeat ≠ 0 →
       now - s.lastClientHeartbeat > CLIENT_DISCONNECT_TIMEOUT →
       presenceTick now s =
         ({ s with clientConnectedState := false, clientAwayState := false,
                   lastClientHeartbeat := 0 },
          [Out.send "client-disconnected" "true"])) := by
  refine ⟨?_, ?_, ?_, ?_⟩
  · intro cfg0 env now r s hu hm hauth
    have hopt : (r.method == "OPTIONS") = false := by rw [hm]; decide
    have hhb : (r.url == "/heartbeat") = true := by rw [hu]; decide
    have hmp : (r.method == "POST") = true := by rw [hm]; decide
    by_cases hcon : s.clientConnectedState <;>
      simp [handleRequest, hopt, hhb, hmp, hauth, heartbeatRoute,
            startClientPresenceMonitor, unauthorized, hcon]
  · intro now s hc hlast haw hle hna
    have hgt : ¬(now - s.lastClientHeartbeat > CLIENT_DISCONNECT_TIMEOUT) := by omega
    simp [presenceTick, hc, hlast, hgt, haw, hna]
  · intro ts s
    refine le_trans (countAway_runTicks_le ts s) ?_
    unfold awayBudget; split <;> omega
  · intro now s hc hlast hgt
    simp [presenceTick, hc, hlast, hgt]

/-- Witness for C3 at concrete inputs: a heartbeat at time 7 connects, a tick
at 40005 on the connected fixture emits `client-away`, a two-tick run emits
it at most once, and a tick at 130005 disconnects. -/
theorem c3_heartbeat_presence_lifecycle_witness :
    (handleRequest cfgEx envEx 7 hbReqEx (initState cfgEx)).1.clientConnectedState = true ∧
    presenceTick 40005 sConnEx =
      ({ sConnEx with clientAwayState := true }, [Out.send "client-away" "true"]) ∧
    List.countP isAwaySend (runTicks [40005, 50005] sConnEx).2 ≤ 1 ∧
    presenceTick 130005 sConnEx =
      ({ sConnEx with clientConnectedState := false, clientAwayState := false,
                      lastClientHeartbeat := 0 },
       [Out.send "client-disconnected" "true"]) := by
  obtain ⟨h1, h2, h3, h4⟩ := c3_heartbeat_presence_lifecycle
  exact ⟨(h1 cfgEx envEx 7 hbReqEx (initState cfgEx) rfl rfl (by decide)).1,
         h2 40005 sConnEx (by decide) (by decide) (by decide) (by decide) (by decide),
         h3 [40005, 50005] sConnEx,
         h4 130005 sConnEx (by decide) (by decide) (by decide)⟩

-- ── C7: presence poll while idle ──

/-- C7 counterexample: after a heartbeat at time 5 the 120 s disconnect
transition at tick time 130006 clears the connected flag, yet the presence
interval still exists afterwards — the disconnect branch never calls
`stopClientPresenceMonitor`, so the timer is not stopped when no client is
connected. -/
theorem c7_timer_survives_disconnect_counterexample :
    ((step (step (initState cfgEx) (Ev.request cfgEx envEx 5 hbReqEx)).1
        (Ev.presenceTickEv 130006)).1.clientConnectedState = false) ∧
    ((step (step (initState cfgEx) (Ev.request cfgEx envEx 5 hbReqEx)).1
        (Ev.presenceTickEv 130006)).1.clientPresenceInterval = true) := by
  constructor <;> rfl

/-- C7 amended: while no client is marked connected each 2 s poll tick
performs no work (no state change, no event), but the interval timer itself
survives the 120 s disconnect transition; the timer is destroyed only by the
explicit teardown paths — an unexpected gateway exit, a stop with presence
reset, full shutdown — and by `stopClientPresenceMonitor` itself (also used
on host suspend). -/
theorem c7_idle_poll_amended :
    (∀ (now : Nat) (s : MainState), s.clientConnectedState = false →
       presenceTick now s = (s, [])) ∧
    (∀ (now : Nat) (s : MainState),
       s.clientConnectedState = true → s.lastClientHeartbeat ≠ 0 →
       now - s.lastClientHeartbeat > CLIENT_DISCONNECT_TIMEOUT →
       (presenceTick now s).1.clientPresenceInterval = s.clientPresenceInterval) ∧
    (∀ (code : Int) (s : MainState), s.intentionallyStopping = false →
       (gatewayExit code s).1.clientPresenceInterval = false) ∧
    (∀ (s : MainState), (stopServer true s).1.clientPresenceInterval = false) ∧
    (∀ (s : MainState), (stopAll s).1.clientPresenceInterval = false) ∧
    (∀ (s : MainState), (stopClientPresenceMonitor s).clientPresenceInterval = false) := by
  refine ⟨?_, ?_, ?_, ?_, ?_, ?_⟩
  · intro now s hc
    simp [presenceTick, hc]
  · intro now s hc hlast hgt
    simp [presenceTick, hc, hlast, hgt]
  · intro code s hs
    simp [gatewayExit, hs]
  · intro s
    simp [stopServer]
  · intro s
    simp [stopAll]
  · intro s
    simp [stopClientPresenceMonitor]

/-- Witness for C7 amended at concrete inputs. -/
theorem c7_idle_poll_amended_witness :
    presenceTick 9999 (initState cfgEx) = (initState cfgEx, []) ∧
    (presenceTick 130005 sConnEx).1.clientPresenceInterval =
      sConnEx.clientPresenceInterval ∧
    (gatewayExit 0 sConnEx).1.clientPresenceInterval = false ∧
    (stopServer true sConnEx).1.clientPresenceInterval = false := by
  obtain ⟨h1, h2, h3, h4, _, _⟩ := c7_idle_poll_amended
  exact ⟨h1 9999 (initState cfgEx) rfl,
         h2 130005 sConnEx rfl (by decide) (by decide),
         h3 0 sConnEx rfl,
         h4 sConnEx⟩

-- ── C6: config-change restart and the presence reset race ──

/-- C6: the restart performed by `POST /global/ai-config` is
`stopServer(false); generateOpenClawConfig; startServer()`, and presence is
indeed untouched when the handler returns (`s2` below is still connected).
But `startServer` clears `intentionallyStopping` synchronously, so when the
old gateway process's asynchronous `exit` event is then delivered, the exit
handler sees the flag false and resets presence: connected flag cleared,
heartbeat timestamp zeroed, presence monitor stopped, `client-disconnected`
emitted — contradicting the claim that presence is unchanged across the
whole restart including the old process's exit event. -/
theorem c6_restart_presence_race :
    ((step (initState cfgEx) (Ev.request cfgEx envEx 1000 hbReqEx)).1.clientConnectedState
       = true) ∧
    ((step (step (initState cfgEx) (Ev.request cfgEx envEx 1000 hbReqEx)).1
        (Ev.request cfgEx envEx 2000 aiPostReqEx)).1.clientConnectedState = true) ∧
    ((step (step (initState cfgEx) (Ev.request cfgEx envEx 1000 hbReqEx)).1
        (Ev.request cfgEx envEx 2000 aiPostReqEx)).1.lastClientHeartbeat = 1000) ∧
    ((step (step (initState cfgEx) (Ev.request cfgEx envEx 1000 hbReqEx)).1
        (Ev.request cfgEx envEx 2000 aiPostReqEx)).1.intentionallyStopping = false) ∧
    ((step (step (step (initState cfgEx) (Ev.request cfgEx envEx 1000 hbReqEx)).1
        (Ev.request cfgEx envEx 2000 aiPostReqEx)).1
        (Ev.gatewayExitEv 0)).1.clientConnectedState = false) ∧
    ((step (step (step (initState cfgEx) (Ev.request cfgEx envEx 1000 hbReqEx)).1
        (Ev.request cfgEx envEx 2000 aiPostReqEx)).1
        (Ev.gatewayExitEv 0)).1.lastClientHeartbeat = 0) ∧
    ((step (step (step (initState cfgEx) (Ev.request cfgEx envEx 1000 hbReqEx)).1
        (Ev.request cfgEx envEx 2000 aiPostReqEx)).1
        (Ev.gatewayExitEv 0)).1.clientPresenceInterval = false) ∧
    (Out.send "client-disconnected" "true" ∈
      (step (step (step (initState cfgEx) (Ev.request cfgEx envEx 1000 hbReqEx)).1
        (Ev.request cfgEx envEx 2000 aiPostReqEx)).1
        (Ev.gatewayExitEv 0)).2) := by
  refine ⟨rfl, rfl, rfl, rfl, rfl, rfl, rfl, ?_⟩
  decide

-- ── C9: monitor reports healthy before the first probe ──

/-- C9: starting the tunnel health monitor immediately sets the health status
to healthy and emits exactly one `tunnel-health healthy` event, and its
synchronous part issues no reachability probe — so healthy is reported before
any check has run. -/
theorem c9_monitor_healthy_before_probe (s : MainState) :
    (startTunnelHealthMonitorInit s).1.tunnelHealthStatus = .healthy ∧
    (startTunnelHealthMonitorInit s).2 = [Out.send "tunnel-health" "healthy"] ∧
    (∀ u, Out.probe u ∉ (startTunnelHealthMonitorInit s).2) := by
  refine ⟨rfl, rfl, ?_⟩
  intro u hmem
  simp [startTunnelHealthMonitorInit, setTunnelHealth, healthStr] at hmem


-- ── C2: three failed checks, one restart ──

/-- C2: from a healthy monitor state with a published URL and a zero failure
counter, three consecutive failed reachability ticks move the health status
to checking after the first failure and to down after the third; across the
three ticks plus the killed process's exit event, the published URL is
cleared exactly once and exactly one tunnel restart is invoked; the exit
handler of the killed process merely clears the one-shot guard flag and
performs nothing else (no second clear, no scheduled restart). -/
theorem c2_three_failures_single_restart
    (env : Env) (s0 : MainState) (rl : Bool)
    (hstop : s0.intentionallyStopping = false)
    (hrest : s0.tunnelRestarting = false)
    (hurl : s0.currentTunnelURL ≠ "")
    (hst : s0.tunnelHealthStatus = .healthy)
    (hfc : s0.tunnelFailCount = 0) :
    (tunnelHealthTick env false s0).1.tunnelHealthStatus = .checking ∧
    (tunnelHealthTick env false
        (tunnelHealthTick env false s0).1).1.tunnelHealthStatus = .checking ∧
    (tunnelHealthTick env false (tunnelHealthTick env false
        (tunnelHealthTick env false s0).1).1).1.tunnelHealthStatus = .down ∧
    (tunnelHealthTick env false (tunnelHealthTick env false
        (tunnelHealthTick env false s0).1).1).1.currentTunnelURL = "" ∧
    (tunnelHealthTick env false (tunnelHealthTick env false
        (tunnelHealthTick env false s0).1).1).1.tunnelRestarting = true ∧
    List.countP isUrlClear
      ((tunnelHealthTick env false s0).2 ++
       (tunnelHealthTick env false (tunnelHealthTick env false s0).1).2 ++
       (tunnelHealthTick env false (tunnelHealthTick env false
          (tunnelHealthTick env false s0).1).1).2 ++
       (cloudflaredExit rl (tunnelHealthTick env false (tunnelHealthTick env false
          (tunnelHealthTick env false s0).1).1).1).2) = 1 ∧
    List.countP isTunnelRestart
      ((tunnelHealthTick env false s0).2 ++
       (tunnelHealthTick env false (tunnelHealthTick env false s0).1).2 ++
       (tunnelHealthTick env false (tunnelHealthTick env false
          (tunnelHealthTick env false s0).1).1).2 ++
       (cloudflaredExit rl (tunnelHealthTick env false (tunnelHealthTick env false
          (tunnelHealthTick env false s0).1).1).1).2) = 1 ∧
    (cloudflaredExit rl (tunnelHealthTick env false (tunnelHealthTick env false
        (tunnelHealthTick env false s0).1).1).1).1.tunnelRestarting = false ∧
    (cloudflaredExit rl (tunnelHealthTick env false (tunnelHealthTick env false
        (tunnelHealthTick env false s0).1).1).1).2 = [] := by
  have hu2 : (s0.currentTunnelURL == "") = false := by simpa using hurl
  have e1 : tunnelHealthTick env false s0 =
      ({ s0 with tunnelFailCount := 1, tunnelHealthStatus := .checking },
       [Out.probe s0.currentTunnelURL, Out.send "tunnel-health" "checking"]) := by
    simp [tunnelHealthTick, hu2, hstop, hfc, setTunnelHealth, healthStr]
  have e2 : tunnelHealthTick env false
      ({ s0 with tunnelFailCount := 1, tunnelHealthStatus := .checking } : MainState) =
      ({ s0 with tunnelFailCount := 2, tunnelHealthStatus := .checking },
       [Out.probe s0.currentTunnelURL]) := by
    simp [tunnelHealthTick, hu2, hstop, setTunnelHealth, healthStr]
  have e3 : tunnelHealthTick env false
      ({ s0 with tunnelFailCount := 2, tunnelHealthStatus := .checking } : MainState) =
      ({ s0 with tunnelFailCount := 0, tunnelHealthStatus := .down,
                 currentTunnelURL := "", tunnelRestarting := true,
                 cloudflaredProc := env.cloudflaredBin },
       [Out.probe s0.currentTunnelURL, Out.send "tunnel-health" "down",
        Out.send "tunnel-url" "", Out.killCloudflared] ++
       (if env.cloudflaredBin then [Out.callStartTunnel, Out.spawnCloudflared]
        else [Out.callStartTunnel,
              Out.send "error" "cloudflared not found. Install with: brew install cloudflare/cloudflare/cloudflared"])) := by
    cases hcb : env.cloudflaredBin <;>
      simp [tunnelHealthTick, hu2, hstop, setTunnelHealth, healthStr,
            startTunnel, hcb]
  have e4 : cloudflaredExit rl
      ({ s0 with tunnelFailCount := 0, tunnelHealthStatus := .down,
                 currentTunnelURL := "", tunnelRestarting := true,
                 cloudflaredProc := env.cloudflaredBin } : MainState) =
      ({ s0 with tunnelFailCount := 0, tunnelHealthStatus := .down,
                 currentTunnelURL := "", tunnelRestarting := false,
                 cloudflaredProc := env.cloudflaredBin }, []) := by
    simp [cloudflaredExit, hstop]
  rw [e1]
  simp only [e2, e3, e4]
  obtain ⟨cb, ob, clb, cxb⟩ := env
  cases cb <;>
    simp [isUrlClear, isTunnelRestart, List.countP_cons, List.countP_append]

/-- Witness for C2 at a concrete healthy state with a published URL. -/
theorem c2_three_failures_single_restart_witness :
    (tunnelHealthTick envEx false
      ({ initState cfgEx with
                    currentTunnelURL := "https://x.trycloudflare.com",
                    tunnelHealthInterval := true,
                    tunnelHealthStatus := .healthy,
                    cloudflaredProc := true } : MainState)).1.tunnelHealthStatus
      = .checking := by
  exact (c2_three_failures_single_restart envEx
    ({ initState cfgEx with
                  currentTunnelURL := "https://x.trycloudflare.com",
                  tunnelHealthInterval := true,
                  tunnelHealthStatus := .healthy,
                  cloudflaredProc := true }) false rfl rfl (by decide) rfl rfl).1


-- ── C5: DNS resolution gates URL publication ──

/-- C5: the DNS wait loop publishes the URL only when some attempt resolved
within the 30 s ceiling, and on publication it sets the published URL, emits
it, and starts the health monitor (status healthy, interval installed); in
every non-publishing run the state is untouched and no `tunnel-url` event is
emitted; and when every attempt fails and some attempt falls past the 30 s
ceiling, the loop kills the tunnel process and its only effect is that kill
— the URL from this attempt is never published and the restart is left to the
exit-triggered path. -/
theorem c5_dns_publish_gate (url : String) (start : Nat) (s : MainState)
    (attempts : List (Nat × Bool)) (hstop : s.intentionallyStopping = false) :
    ((waitForDns url start s attempts).2.2 = .published →
       (∃ p ∈ attempts, p.2 = true ∧ p.1 - start ≤ 30000) ∧
       (waitForDns url start s attempts).1.currentTunnelURL = url ∧
       (waitForDns url start s attempts).1.tunnelHealthInterval = true ∧
       (waitForDns url start s attempts).1.tunnelHealthStatus = .healthy ∧
       Out.send "tunnel-url" url ∈ (waitForDns url start s attempts).2.1) ∧
    ((waitForDns url start s attempts).2.2 ≠ .published →
       (waitForDns url start s attempts).1 = s ∧
       ∀ v, Out.send "tunnel-url" v ∉ (waitForDns url start s attempts).2.1) ∧
    ((∀ p ∈ attempts, p.2 = false) →
     (∃ p ∈ attempts, p.1 - start > 30000) →
       (waitForDns url start s attempts).2.2 = .killedTunnel ∧
       (waitForDns url start s attempts).2.1 = [Out.killCloudflared]) := by
  induction attempts with
  | nil =>
    refine ⟨?_, ?_, ?_⟩
    · intro h
      simp [waitForDns] at h
    · intro _
      simp [waitForDns]
    · intro _ hex
      simp at hex
  | cons a rest ih =>
    obtain ⟨t, ok⟩ := a
    by_cases hc : t - start > 30000
    · refine ⟨?_, ?_, ?_⟩
      · intro h
        simp [waitForDns, hstop, hc] at h
      · intro _
        simp [waitForDns, hstop, hc]
      · intro _ _
        simp [waitForDns, hstop, hc]
    · cases ok with
      | true =>
        refine ⟨?_, ?_, ?_⟩
        · intro _
          refine ⟨⟨(t, true), List.mem_cons_self _ _, rfl, by omega⟩, ?_⟩
          simp [waitForDns, hstop, hc, startTunnelHealthMonitorInit,
                setTunnelHealth, healthStr]
        · intro h
          exfalso
          apply h
          simp [waitForDns, hstop, hc]
        · intro hall _
          exfalso
          have := hall (t, true) (List.mem_cons_self _ _)
          simp at this
      | false =>
        have hrec : waitForDns url start s ((t, false) :: rest) =
            waitForDns url start s rest := by
          simp [waitForDns, hstop, hc]
        rw [hrec]
        obtain ⟨ih1, ih2, ih3⟩ := ih
        refine ⟨?_, ?_, ?_⟩
        · intro h
          obtain ⟨⟨p, hp, hps⟩, hrestc⟩ := ih1 h
          exact ⟨⟨p, List.mem_cons_of_mem _ hp, hps⟩, hrestc⟩
        · exact ih2
        · intro hall hex
          refine ih3 (fun p hp => hall p (List.mem_cons_of_mem _ hp)) ?_
          obtain ⟨p, hp, hpc⟩ := hex
          rcases List.mem_cons.mp hp with hph | hpr
          · exfalso
            rw [hph] at hpc
            exact hc hpc
          · exact ⟨p, hpr, hpc⟩

/-- Witness for C5: two failing attempts then a success within the ceiling
publishes; and a run past the ceiling kills the process. -/
theorem c5_dns_publish_gate_witness :
    (waitForDns "https://x.trycloudflare.com" 0 (initState cfgEx)
       [(0, false), (1000, false), (2000, true)]).2.2 = DnsOutcome.published ∧
    (waitForDns "https://x.trycloudflare.com" 0 (initState cfgEx)
       [(0, false), (1000, false), (2000, true)]).1.currentTunnelURL =
      "https://x.trycloudflare.com" ∧
    (waitForDns "https://x.trycloudflare.com" 0 (initState cfgEx)
       [(0, false), (31000, false)]).2.2 = DnsOutcome.killedTunnel := by
  refine ⟨rfl, ?_, ?_⟩
  · exact ((c5_dns_publish_gate "https://x.trycloudflare.com" 0 (initState cfgEx)
      [(0, false), (1000, false), (2000, true)] rfl).1 rfl).2.1
  · exact ((c5_dns_publish_gate "https://x.trycloudflare.com" 0 (initState cfgEx)
      [(0, false), (31000, false)] rfl).2.2 (by decide) (by decide)).1


-- ── C10: missing tunnel binary ends supervision ──

/-- No gateway stop ever emits a scheduled tunnel restart. -/
lemma noSched_stopServer (b : Bool) (s : MainState) (d : Nat) :
    Out.schedTunnelRestart d ∉ (stopServer b s).2 := by
  cases b <;> simp [stopServer]

/-- No gateway start ever emits a scheduled tunnel restart. -/
lemma noSched_startServer (env : Env) (s : MainState) (d : Nat) :
    Out.schedTunnelRestart d ∉ (startServer env s).2 := by
  unfold startServer
  by_cases hb : (!env.openclawBin) = true
  · simp [hb]
  · cases hws : findActiveWorkspace s.configStore with
    | none => simp [hb, hws]
    | some ws =>
      by_cases hp : ws.paths.isEmpty <;> simp [hb, hws, hp]

/-- No tunnel start ever emits a scheduled tunnel restart. -/
lemma noSched_startTunnel (env : Env) (s : MainState) (d : Nat) :
    Out.schedTunnelRestart d ∉ (startTunnel env s).2 := by
  unfold startTunnel
  by_cases hb : (!env.cloudflaredBin) = true <;> simp [hb]

/-- No tunnel-health tick ever emits a scheduled tunnel restart. -/
lemma noSched_tunnelHealthTick (env : Env) (ok : Bool) (s : MainState) (d : Nat) :
    Out.schedTunnelRestart d ∉ (tunnelHealthTick env ok s).2 := by
  by_cases hg : (s.currentTunnelURL == "" || s.intentionallyStopping) = true
  · simp [tunnelHealthTick, hg]
  · have hg' : (s.currentTunnelURL == "" || s.intentionallyStopping) = false := by
      simpa using hg
    cases ok with
    | true =>
      by_cases hh : s.tunnelHealthStatus = .healthy <;>
        simp [tunnelHealthTick, hg', hh, setTunnelHealth]
    | false =>
      by_cases h3 : s.tunnelFailCount + 1 ≥ 3
      · by_cases h1 : (s.tunnelFailCount + 1 == 1) = true
        · exfalso
          simp at h1
          omega
        · simp [tunnelHealthTick, hg', h3, h1, setTunnelHealth,
                List.mem_append, noSched_startTunnel]
      · by_cases h1 : (s.tunnelFailCount + 1 == 1) = true <;>
          simp [tunnelHealthTick, hg', h3, h1, setTunnelHealth]

/-- No presence-poll tick ever emits a scheduled tunnel restart. -/
lemma noSched_presenceTick (now : Nat) (s : MainState) (d : Nat) :
    Out.schedTunnelRestart d ∉ (presenceTick now s).2 := by
  unfold presenceTick
  by_cases hg : (!s.clientConnectedState || s.lastClientHeartbeat == 0) = true
  · simp [hg]
  · by_cases hd : now - s.lastClientHeartbeat > CLIENT_DISCONNECT_TIMEOUT
    · simp [hg, hd]
    · by_cases ha : ((now - s.lastClientHeartbeat > CLIENT_AWAY_TIMEOUT) &&
          !s.clientAwayState) = true <;>
        simp [hg, hd, ha]

/-- No gateway-exit handler run ever emits a scheduled tunnel restart. -/
lemma noSched_gatewayExit (code : Int) (s : MainState) (d : Nat) :
    Out.schedTunnelRestart d ∉ (gatewayExit code s).2 := by
  unfold gatewayExit
  by_cases hs : s.intentionallyStopping = true
  · simp [hs]
  · by_cases hc : (code == 0) = true <;>
      by_cases hc2 : (code != 0) = true <;>
        simp [hs, hc, hc2]

/-- No ai-config update handler run ever emits a scheduled tunnel restart. -/
lemma noSched_aiConfigPostRoute (env : Env) (r : Request) (s : MainState) (d : Nat) :
    Out.schedTunnelRestart d ∉ (aiConfigPostRoute env r s).2.2 := by
  unfold aiConfigPostRoute
  cases hb : r.aiConfigBody with
  | none => simp
  | some b =>
    cases hsrc : b.aiSource with
    | none => simp [hsrc]
    | some src =>
      by_cases hin : src = "claude-cli" ∨ src = "codex-cli" ∨ src = "api-key"
      · have hC : ¬(¬src = "claude-cli" ∧ ¬src = "codex-cli" ∧ ¬src = "api-key") := by
          tauto
        cases hk : b.apiKey <;> cases hp : b.apiProvider <;>
          simp [hsrc, hk, hp, hC, List.mem_append,
                noSched_stopServer, noSched_startServer]
      · have hC : ¬src = "claude-cli" ∧ ¬src = "codex-cli" ∧ ¬src = "api-key" := by
          tauto
        simp [hsrc, hC]

/-- No active-workspace update handler run ever emits a scheduled tunnel
restart. -/
lemma noSched_workspacesActiveRoute (env : Env) (r : Request) (s : MainState) (d : Nat) :
    Out.schedTunnelRestart d ∉ (workspacesActiveRoute env r s).2.2 := by
  unfold workspacesActiveRoute
  cases hb : r.workspaceBody with
  | none => simp
  | some wid =>
    cases hws : s.configStore.workspaces.find? (fun w => some w.id == wid) <;>
      simp [hws, List.mem_append, noSched_stopServer, noSched_startServer]

/-- No proxy request handler run ever emits a scheduled tunnel restart. -/
lemma noSched_handleRequest (cfg0 : Config) (env : Env) (now : Nat)
    (r : Request) (s : MainState) (d : Nat) :
    Out.schedTunnelRestart d ∉ (handleRequest cfg0 env now r s).2.2 := by
  unfold handleRequest
  repeat' split
  all_goals
    simp [unauthorized, heartbeatRoute, aiConfigGetRoute, workspacesGetRoute,
          noSched_aiConfigPostRoute, noSched_workspacesActiveRoute]

/-- C10: when the tunnel binary cannot be resolved, `startTunnel` reports the
error and returns with the state untouched — no process spawned, nothing
scheduled; and across the whole event system, a delayed tunnel restart
(the 2 s / 60 s policy) can only ever be emitted by a tunnel process's exit
event — the only handler that schedules one — so with no process spawned no
retry can ever fire until `startTunnel` is invoked again from outside. -/
theorem c10_missing_binary_no_retry (env : Env) (s : MainState)
    (h : env.cloudflaredBin = false) :
    startTunnel env s =
      (s, [Out.callStartTunnel,
           Out.send "error" "cloudflared not found. Install with: brew install cloudflare/cloudflare/cloudflared"]) ∧
    (∀ d, Out.schedTunnelRestart d ∉ (startTunnel env s).2) ∧
    Out.spawnCloudflared ∉ (startTunnel env s).2 ∧
    (startTunnel env s).1.cloudflaredProc = s.cloudflaredProc ∧
    (∀ (s' : MainState) (e : Ev) (d : Nat),
       Out.schedTunnelRestart d ∈ (step s' e).2 →
       ∃ rl, e = Ev.cloudflaredExitEv rl) := by
  have heq : startTunnel env s =
      (s, [Out.callStartTunnel,
           Out.send "error" "cloudflared not found. Install with: brew install cloudflare/cloudflare/cloudflared"]) := by
    simp [startTunnel, h]
  refine ⟨heq, ?_, ?_, ?_, ?_⟩
  · intro d
    rw [heq]
    simp
  · rw [heq]
    simp
  · rw [heq]
  · intro s' e d hmem
    cases e with
    | request cfg0 env2 now r =>
      exact absurd hmem (noSched_handleRequest cfg0 env2 now r s' d)
    | upgrade r => simp [step, handleUpgrade] at hmem
    | presenceTickEv now =>
      simp only [step] at hmem
      split at hmem
      · exact absurd hmem (noSched_presenceTick now s' d)
      · simp at hmem
    | tunnelTickEv env2 ok =>
      simp only [step] at hmem
      split at hmem
      · exact absurd hmem (noSched_tunnelHealthTick env2 ok s' d)
      · simp at hmem
    | cloudflaredExitEv rl => exact ⟨rl, rfl⟩
    | gatewayExitEv code =>
      exact absurd hmem (noSched_gatewayExit code s' d)
    | stopServerEv b => exact absurd hmem (noSched_stopServer b s' d)
    | startServerEv env2 => exact absurd hmem (noSched_startServer env2 s' d)
    | startTunnelEv env2 => exact absurd hmem (noSched_startTunnel env2 s' d)
    | stopAllEv => simp [step, stopAll] at hmem
    | suspendEv => simp [step] at hmem
    | resumeEv now =>
      simp only [step] at hmem
      split at hmem <;> simp at hmem

/-- Witness for C10 at a concrete environment lacking the binary. -/
theorem c10_missing_binary_no_retry_witness :
    startTunnel { cloudflaredBin := false, openclawBin := true,
                  claudeBin := true, codexBin := true } (initState cfgEx) =
      (initState cfgEx,
       [Out.callStartTunnel,
        Out.send "error" "cloudflared not found. Install with: brew install cloudflare/cloudflare/cloudflared"]) := by
  exact (c10_missing_binary_no_retry
    { cloudflaredBin := false, openclawBin := true,
      claudeBin := true, codexBin := true } (initState cfgEx) rfl).1


-- ── C8: ai-config round-trip with exactly one gateway restart ──

/-- A gateway stop leaves the persisted config untouched. -/
lemma stopServer_configStore (b : Bool) (s : MainState) :
    (stopServer b s).1.configStore = s.configStore := by
  cases b <;> simp [stopServer]

/-- A gateway start leaves the persisted config untouched. -/
lemma startServer_configStore (env : Env) (s : MainState) :
    (startServer env s).1.configStore = s.configStore := by
  unfold startServer
  by_cases hb : (!env.openclawBin) = true
  · simp [hb]
  · cases hws : findActiveWorkspace s.configStore with
    | none => simp [hb, hws]
    | some ws => by_cases hp : ws.paths.isEmpty <;> simp [hb, hws, hp]

/-- Among the effects of a gateway stop, the only restart marker is the stop
invocation itself. -/
lemma filter_restart_stopServer (b : Bool) (s : MainState) :
    (stopServer b s).2.filter isGatewayRestartMarker = [Out.callStopServer b] := by
  cases b <;> simp [stopServer, isGatewayRestartMarker]

/-- Among the effects of a gateway start, the only restart marker is the
start invocation itself. -/
lemma filter_restart_startServer (env : Env) (s : MainState) :
    (startServer env s).2.filter isGatewayRestartMarker = [Out.callStartServer] := by
  unfold startServer
  by_cases hb : (!env.openclawBin) = true
  · simp [hb, isGatewayRestartMarker]
  · cases hws : findActiveWorkspace s.configStore with
    | none => simp [hb, hws, isGatewayRestartMarker]
    | some ws =>
      by_cases hp : ws.paths.isEmpty <;> simp [hb, hws, hp, isGatewayRestartMarker]

/-- C8: an authenticated `POST /global/ai-config` selecting
`{aiSource: api-key, apiKey: k, apiProvider: openai}` followed by an
authenticated `GET /global/ai-config` reports aiSource `api-key`,
`hasApiKey` true, and apiProvider `openai` (the values round-trip through
the persisted config store), and the POST's effects contain exactly one
gateway restart: one stop without presence reset followed by one start. -/
theorem c8_ai_config_roundtrip (cfg0 : Config) (env : Env) (s : MainState)
    (n1 n2 : Nat) :
    (∃ clis wss awid,
       (handleRequest cfg0 env n2 (aiGetReqOf cfg0)
          (handleRequest cfg0 env n1 (aiPostReqOf cfg0) s).1).2.1 =
         Response.status 200
           (RespBody.aiConfigView (some CLAWDAUNT_PROTOCOL_VERSION)
              "api-key" "openai" true clis wss awid)) ∧
    (handleRequest cfg0 env n1 (aiPostReqOf cfg0) s).2.2.filter
        isGatewayRestartMarker =
      [Out.callStopServer false, Out.callStartServer] := by
  have hauth : authOk cfg0 (aiPostReqOf cfg0) = true := by
    simp [authOk, aiPostReqOf]
  have hauth2 : authOk cfg0 (aiGetReqOf cfg0) = true := by
    simp [authOk, aiGetReqOf]
  have epost : handleRequest cfg0 env n1 (aiPostReqOf cfg0) s =
      aiConfigPostRoute env (aiPostReqOf cfg0) s := by
    simp [handleRequest, aiPostReqOf, authOk]
  have eroute : aiConfigPostRoute env (aiPostReqOf cfg0) s =
      ((startServer env (stopServer false
          { s with configStore :=
              { s.configStore with
                  aiSource := "api-key", apiKey := "k", apiProvider := "openai" } }).1).1,
       Response.status 200
         (RespBody.aiConfigView none "api-key" "openai" true (cliAvailOf env)
            (wsSummaries
              { s.configStore with
                  aiSource := "api-key", apiKey := "k", apiProvider := "openai" })
            s.configStore.activeWorkspaceId),
       (stopServer false
          { s with configStore :=
              { s.configStore with
                  aiSource := "api-key", apiKey := "k", apiProvider := "openai" } }).2 ++
         [Out.writeOpenClawConfig] ++
         (startServer env (stopServer false
            { s with configStore :=
                { s.configStore with
                    aiSource := "api-key", apiKey := "k", apiProvider := "openai" } }).1).2 ++
         [Out.send "config-changed" ""]) := by
    simp [aiConfigPostRoute, aiPostReqOf]
  have hcs : (handleRequest cfg0 env n1 (aiPostReqOf cfg0) s).1.configStore =
      { s.configStore with
          aiSource := "api-key", apiKey := "k", apiProvider := "openai" } := by
    rw [epost, eroute]
    rw [startServer_configStore, stopServer_configStore]
  constructor
  · have eget : handleRequest cfg0 env n2 (aiGetReqOf cfg0)
        (handleRequest cfg0 env n1 (aiPostReqOf cfg0) s).1 =
        aiConfigGetRoute env (handleRequest cfg0 env n1 (aiPostReqOf cfg0) s).1 := by
      simp [handleRequest, aiGetReqOf, authOk]
    refine ⟨cliAvailOf env,
            wsSummaries (handleRequest cfg0 env n1 (aiPostReqOf cfg0) s).1.configStore,
            (handleRequest cfg0 env n1 (aiPostReqOf cfg0) s).1.configStore.activeWorkspaceId,
            ?_⟩
    rw [eget]
    simp [aiConfigGetRoute, hcs]
  · rw [epost, eroute]
    simp only [List.filter_append]
    simp [filter_restart_stopServer, filter_restart_startServer,
          isGatewayRestartMarker]


-- ── C1: authentication scope of the reverse proxy ──

/-- C1 counterexample: a non-OPTIONS request whose path matches no control
endpoint and whose Authorization header is wrong is not answered 401 — it is
forwarded to the backend port; and a connection-upgrade request is spliced to
the backend with no credential check at all. -/
theorem c1_auth_counterexample :
    authOk cfgEx passThroughReqEx = false ∧
    (handleRequest cfgEx envEx 0 passThroughReqEx (initState cfgEx)).2.1 =
      Response.proxiedToBackend ∧
    (handleRequest cfgEx envEx 0 passThroughReqEx (initState cfgEx)).2.1 ≠
      Response.status 401 (RespBody.errorMsg "Unauthorized") ∧
    (handleUpgrade passThroughReqEx (initState cfgEx)).2 = [Out.spliceToBackend] := by
  refine ⟨rfl, rfl, ?_, rfl⟩
  decide

/-- If a url is matched by the session-history pattern it cannot equal a url
the pattern rejects. -/
lemma beq_false_of_historyKey (u v : String)
    (hu : (historyKeyOf u).isSome = true) (hv : historyKeyOf v = none) :
    (u == v) = false := by
  cases h : u == v
  · rfl
  · exfalso
    have huv : u = v := by simpa using h
    rw [huv, hv] at hu
    simp at hu

/-- C1 amended: every request matching one of the proxy's locally terminated
control-endpoint routes whose Authorization header differs from
`Bearer <secret>` is answered 401 with the structured error body, with no
state change and no effect, before any other handling; but a non-OPTIONS
request matching no control route is forwarded to the backend port without
any proxy-level credential check, and a connection-upgrade request is spliced
to the backend without any credential check. -/
theorem c1_auth_amended :
    (∀ (cfg0 : Config) (env : Env) (now : Nat) (r : Request) (s : MainState),
       isControlRoute r = true → authOk cfg0 r = false →
       handleRequest cfg0 env now r s =
         (s, Response.status 401 (RespBody.errorMsg "Unauthorized"), [])) ∧
    (∀ (cfg0 : Config) (env : Env) (now : Nat) (r : Request) (s : MainState),
       isControlRoute r = false → (r.method == "OPTIONS") = false →
       handleRequest cfg0 env now r s = (s, Response.proxiedToBackend, [])) ∧
    (∀ (r : Request) (s : MainState),
       handleUpgrade r s = (s, [Out.spliceToBackend])) := by
  refine ⟨?_, ?_, fun r s => rfl⟩
  · intro cfg0 env now r s hroute hauth
    simp only [isControlRoute, Bool.or_eq_true, Bool.and_eq_true] at hroute
    rcases hroute with (((((⟨hu, hm⟩ | ⟨hu, hm⟩) | ⟨hu, hm⟩) | ⟨hu, hm⟩) |
      ⟨hu, hm⟩) | ⟨hk, hm⟩) | ⟨hu, hm⟩
    · have hu' : r.url = "/heartbeat" := by simpa using hu
      have hm' : r.method = "POST" := by simpa using hm
      simp [handleRequest, hu', hm', hauth, unauthorized]
    · have hu' : r.url = "/global/ai-config" := by simpa using hu
      have hm' : r.method = "GET" := by simpa using hm
      simp [handleRequest, hu', hm', hauth, unauthorized]
    · have hu' : r.url = "/global/ai-config" := by simpa using hu
      have hm' : r.method = "POST" := by simpa using hm
      simp [handleRequest, hu', hm', hauth, unauthorized]
    · have hu' : r.url = "/global/workspaces" := by simpa using hu
      have hm' : r.method = "GET" := by simpa using hm
      simp [handleRequest, hu', hm', hauth, unauthorized]
    · have hu' : r.url = "/global/workspaces/active" := by simpa using hu
      have hm' : r.method = "POST" := by simpa using hm
      simp [handleRequest, hu', hm', hauth, unauthorized]
    · have hm' : r.method = "GET" := by simpa using hm
      have h1 : (r.url == "/global/ai-config") = false :=
        beq_false_of_historyKey _ _ hk (by decide)
      have h2 : (r.url == "/global/workspaces") = false :=
        beq_false_of_historyKey _ _ hk (by decide)
      simp [handleRequest, hm', h1, h2, hk, hauth, unauthorized]
    · have hu' : r.url = "/v1/sessions" := by simpa using hu
      have hm' : r.method = "GET" := by simpa using hm
      have hfs : (historyKeyOf "/v1/sessions").isSome = false := by decide
      simp [handleRequest, hu', hm', hfs, hauth, unauthorized]
  · intro cfg0 env now r s hroute hopt
    simp only [isControlRoute, Bool.or_eq_false_iff, Bool.and_eq_false_iff]
      at hroute
    obtain ⟨⟨⟨⟨⟨⟨h1, h2⟩, h3⟩, h4⟩, h5⟩, h6⟩, h7⟩ := hroute
    unfold handleRequest
    rcases h1 with h1 | h1 <;> rcases h2 with h2 | h2 <;>
      rcases h3 with h3 | h3 <;> rcases h4 with h4 | h4 <;>
        rcases h5 with h5 | h5 <;> rcases h6 with h6 | h6 <;>
          rcases h7 with h7 | h7 <;>
            simp [hopt, h1, h2, h3, h4, h5, h6, h7]

/-- Witness for C1 amended: a heartbeat with a wrong credential is answered
401 untouched, and an unauthenticated request outside the control routes is
forwarded. -/
theorem c1_auth_amended_witness :
    handleRequest cfgEx envEx 0
      { method := "POST", url := "/heartbeat",
        authorization := some "Bearer wrong",
        aiConfigBody := none, workspaceBody := none } (initState cfgEx) =
      (initState cfgEx, Response.status 401 (RespBody.errorMsg "Unauthorized"),
       []) ∧
    handleRequest cfgEx envEx 0 passThroughReqEx (initState cfgEx) =
      (initState cfgEx, Response.proxiedToBackend, []) := by
  obtain ⟨h1, h2, _⟩ := c1_auth_amended
  exact ⟨h1 cfgEx envEx 0 _ (initState cfgEx) (by decide) (by decide),
         h2 cfgEx envEx 0 passThroughReqEx (initState cfgEx) (by decide)
           (by decide)⟩


-- ── C4: away implies connected, in every reachable state ──

/-- A heartbeat always leaves the away flag cleared. -/
lemma heartbeatRoute_away (now : Nat) (s : MainState) :
    (heartbeatRoute now s).1.clientAwayState = false := rfl

/-- A gateway start does not touch the presence flags. -/
lemma startServer_presence (env : Env) (s : MainState) :
    (startServer env s).1.clientAwayState = s.clientAwayState ∧
    (startServer env s).1.clientConnectedState = s.clientConnectedState := by
  unfold startServer
  by_cases hb : (!env.openclawBin) = true
  · simp [hb]
  · cases hws : findActiveWorkspace s.configStore with
    | none => simp [hb, hws]
    | some ws => by_cases hp : ws.paths.isEmpty <;> simp [hb, hws, hp]

/-- The ai-config update handler does not touch the presence flags (its stop
is a keep-presence stop). -/
lemma aiConfigPostRoute_presence (env : Env) (r : Request) (s : MainState) :
    (aiConfigPostRoute env r s).1.clientAwayState = s.clientAwayState ∧
    (aiConfigPostRoute env r s).1.clientConnectedState = s.clientConnectedState := by
  unfold aiConfigPostRoute
  cases hb : r.aiConfigBody with
  | none => exact ⟨rfl, rfl⟩
  | some b =>
    cases hsrc : b.aiSource with
    | none => simp [hsrc]
    | some src =>
      by_cases hin : src = "claude-cli" ∨ src = "codex-cli" ∨ src = "api-key"
      · have hC : ¬(¬src = "claude-cli" ∧ ¬src = "codex-cli" ∧ ¬src = "api-key") := by
          tauto
        cases hk : b.apiKey <;> cases hp : b.apiProvider <;>
          simp [hsrc, hk, hp, hC, stopServer, startServer_presence]
      · have hC : ¬src = "claude-cli" ∧ ¬src = "codex-cli" ∧ ¬src = "api-key" := by
          tauto
        simp [hsrc, hC]

/-- The active-workspace update handler does not touch the presence flags. -/
lemma workspacesActiveRoute_presence (env : Env) (r : Request) (s : MainState) :
    (workspacesActiveRoute env r s).1.clientAwayState = s.clientAwayState ∧
    (workspacesActiveRoute env r s).1.clientConnectedState = s.clientConnectedState := by
  unfold workspacesActiveRoute
  cases hb : r.workspaceBody with
  | none => exact ⟨rfl, rfl⟩
  | some wid =>
    cases hws : s.configStore.workspaces.find? (fun w => some w.id == wid) <;>
      simp [hws, stopServer, startServer_presence]

/-- A tunnel-health tick does not touch the presence flags. -/
lemma tunnelHealthTick_presence (env : Env) (ok : Bool) (s : MainState) :
    (tunnelHealthTick env ok s).1.clientAwayState = s.clientAwayState ∧
    (tunnelHealthTick env ok s).1.clientConnectedState = s.clientConnectedState := by
  by_cases hg : (s.currentTunnelURL == "" || s.intentionallyStopping) = true
  · simp [tunnelHealthTick, hg]
  · have hg' : (s.currentTunnelURL == "" || s.intentionallyStopping) = false := by
      simpa using hg
    cases ok with
    | true =>
      by_cases hh : s.tunnelHealthStatus = .healthy <;>
        simp [tunnelHealthTick, hg', hh, setTunnelHealth]
    | false =>
      by_cases h3 : s.tunnelFailCount + 1 ≥ 3
      · by_cases h1 : (s.tunnelFailCount + 1 == 1) = true
        · exfalso
          simp at h1
          omega
        · cases hcb : env.cloudflaredBin <;>
            simp [tunnelHealthTick, hg', h3, h1, setTunnelHealth, startTunnel, hcb]
      · by_cases h1 : (s.tunnelFailCount + 1 == 1) = true <;>
          simp [tunnelHealthTick, hg', h3, h1, setTunnelHealth]

/-- The request handler preserves the presence invariant. -/
lemma presenceInv_handleRequest (cfg0 : Config) (env : Env) (now : Nat)
    (r : Request) (s : MainState) (h : PresenceInv s) :
    PresenceInv (handleRequest cfg0 env now r s).1 := by
  unfold handleRequest
  repeat' split
  all_goals
    first
    | exact h
    | (intro ha
       rw [heartbeatRoute_away] at ha
       exact Bool.noConfusion ha)
    | (intro ha
       rw [(aiConfigPostRoute_presence env r s).1] at ha
       rw [(aiConfigPostRoute_presence env r s).2]
       exact h ha)
    | (intro ha
       rw [(workspacesActiveRoute_presence env r s).1] at ha
       rw [(workspacesActiveRoute_presence env r s).2]
       exact h ha)

/-- The presence-poll tick preserves the presence invariant. -/
lemma presenceInv_presenceTick (now : Nat) (s : MainState) (h : PresenceInv s) :
    PresenceInv (presenceTick now s).1 := by
  by_cases hg : (!s.clientConnectedState || s.lastClientHeartbeat == 0) = true
  · have e : presenceTick now s = (s, []) := by simp [presenceTick, hg]
    rw [e]
    exact h
  · have hg' : (!s.clientConnectedState || s.lastClientHeartbeat == 0) = false := by
      simpa using hg
    have hc : s.clientConnectedState = true := by
      rcases Bool.or_eq_false_iff.mp hg' with ⟨h1, _⟩
      simpa using h1
    have hlast : s.lastClientHeartbeat ≠ 0 := by
      rcases Bool.or_eq_false_iff.mp hg' with ⟨_, h2⟩
      simpa using h2
    by_cases hd : now - s.lastClientHeartbeat > CLIENT_DISCONNECT_TIMEOUT
    · have e : (presenceTick now s).1 =
          { s with clientConnectedState := false, clientAwayState := false,
                   lastClientHeartbeat := 0 } := by
        simp [presenceTick, hc, hlast, hd]
      rw [e]
      intro ha
      exact Bool.noConfusion ha
    · by_cases haw : now - s.lastClientHeartbeat > CLIENT_AWAY_TIMEOUT
      · by_cases hna : s.clientAwayState = true
        · have e : (presenceTick now s).1 = s := by
            simp [presenceTick, hc, hlast, hd, haw, hna]
          rw [e]
          exact h
        · have hna' : s.clientAwayState = false := by simpa using hna
          have e : (presenceTick now s).1 = { s with clientAwayState := true } := by
            simp [presenceTick, hc, hlast, hd, haw, hna']
          rw [e]
          intro _
          exact hc
      · have e : (presenceTick now s).1 = s := by
          simp [presenceTick, hc, hlast, hd, haw]
        rw [e]
        exact h

/-- Every event-loop step preserves the presence invariant. -/
lemma presenceInv_step (s : MainState) (e : Ev) (h : PresenceInv s) :
    PresenceInv (step s e).1 := by
  cases e with
  | request cfg0 env now r => exact presenceInv_handleRequest cfg0 env now r s h
  | upgrade r => exact h
  | presenceTickEv now =>
    by_cases hi : s.clientPresenceInterval = true
    · simp only [step, hi, if_true]
      exact presenceInv_presenceTick now s h
    · simp only [step, hi]
      simpa [hi] using h
  | tunnelTickEv env ok =>
    by_cases hi : s.tunnelHealthInterval = true
    · simp only [step, hi, if_true]
      intro ha
      rw [(tunnelHealthTick_presence env ok s).1] at ha
      rw [(tunnelHealthTick_presence env ok s).2]
      exact h ha
    · simp only [step, hi]
      simpa [hi] using h
  | cloudflaredExitEv rl =>
    show PresenceInv (cloudflaredExit rl s).1
    unfold cloudflaredExit
    repeat' split
    all_goals exact h
  | gatewayExitEv code =>
    show PresenceInv (gatewayExit code s).1
    unfold gatewayExit
    split
    · exact h
    · intro ha
      exact Bool.noConfusion ha
  | stopServerEv b =>
    cases b with
    | false => exact h
    | true =>
      intro ha
      exact Bool.noConfusion ha
  | startServerEv env =>
    intro ha
    rw [show (step s (Ev.startServerEv env)).1 = (startServer env s).1 from rfl,
        (startServer_presence env s).1] at ha
    rw [show (step s (Ev.startServerEv env)).1 = (startServer env s).1 from rfl,
        (startServer_presence env s).2]
    exact h ha
  | startTunnelEv env =>
    show PresenceInv (startTunnel env s).1
    unfold startTunnel
    split <;> exact h
  | stopAllEv =>
    intro ha
    exact Bool.noConfusion ha
  | suspendEv => exact h
  | resumeEv now =>
    show PresenceInv (if s.clientConnectedState then
      (startClientPresenceMonitor { s with lastClientHeartbeat := now }, ([] : List Out))
      else (s, [])).1
    split
    · exact h
    · exact h

/-- C4: in every reachable state of the system, an away client is still a
connected client — the away flag is set only by the poll's 30 s branch, which
runs only while connected, and every operation clearing the connected flag
(the 120 s timeout, an unexpected gateway exit, a stop with presence reset,
full shutdown) clears the away flag in the same step. -/
theorem c4_away_implies_connected (s : MainState) (h : Reachable s) :
    s.clientAwayState = true → s.clientConnectedState = true := by
  induction h with
  | init cfg => intro ha; exact Bool.noConfusion ha
  | next hr e ih => exact presenceInv_step _ e ih

/-- Witness for C4: a concrete reachable state with the away flag set (one
heartbeat, then a poll tick past 30 s) is still connected. -/
theorem c4_away_implies_connected_witness :
    ((step (step (initState cfgEx) (Ev.request cfgEx envEx 5 hbReqEx)).1
        (Ev.presenceTickEv 40006)).1.clientAwayState = true) ∧
    ((step (step (initState cfgEx) (Ev.request cfgEx envEx 5 hbReqEx)).1
        (Ev.presenceTickEv 40006)).1.clientConnectedState = true) := by
  refine ⟨rfl, ?_⟩
  exact c4_away_implies_connected _
    (Reachable.next (Reachable.next (Reachable.init cfgEx)
       (Ev.request cfgEx envEx 5 hbReqEx)) (Ev.presenceTickEv 40006)) rfl

end Clawdaunt
